import Mathlib

/-!
Verification of the OLT session-pooling and protocol-automation engine
(`services/connection_pool.py`, `services/ont_service.py`).

The Python source is shallowly embedded: every function below is a direct
translation of the corresponding Python function, with device/network
effects made explicit.  Conventions used throughout:

* Python strings are Lean `String`s; the Python operations `in`,
  `startswith`, `lower`, `upper`, `strip`, `split`, `replace` and slicing
  are modelled by the `py*` helpers below with Python semantics
  (`str.split()` discards empty fields, `str.split(sep)` keeps them, …).
* A Python `dict` is an insertion-ordered association list
  (`Rec`/`Dict` below); `d[k] = v`, `d.update`, `d.setdefault` are the
  corresponding operations on it.  Python `float` values are carried as
  their cleaned decimal text (no claim below inspects float arithmetic).
* Raising an exception is returning `Except.error`; a Python
  `try/except` that swallows an exception is a `match` on that value.
* Device and network I/O is passed in explicitly: the text a device
  answers to a command is a function argument, and functions that write
  to the channel also return the trace of writes they issued, so that
  "no I/O happened" is a statement about that trace.
-/

set_option maxRecDepth 40000

namespace OltZte

/-! ## Python string primitives -/

/-- Python whitespace for `str.split()` / `str.strip()`:
space, tab, newline, carriage return, vertical tab, form feed. -/
def pyIsSpace (c : Char) : Bool :=
  c == ' ' || c == '\t' || c == '\n' || c == '\r' || c == '\x0b' || c == '\x0c'

/-- `leadsWith p l` : the char list `p` is an initial run of `l`. -/
def leadsWith : List Char → List Char → Bool
  | [], _ => true
  | _ :: _, [] => false
  | a :: p, b :: l => a == b && leadsWith p l

/-- Contiguous-substring test on char lists (Python `needle in hay`). -/
def hasSub (needle : List Char) : List Char → Bool
  | [] => leadsWith needle []
  | c :: t => leadsWith needle (c :: t) || hasSub needle t

/-- Python `needle in hay` on strings. -/
def pyIn (needle hay : String) : Bool := hasSub needle.data hay.data

/-- Python `s.startswith(p)`. -/
def pyStartsWith (s p : String) : Bool := leadsWith p.data s.data

/-- Python `s.lower()` (ASCII case folding, all device text is ASCII). -/
def pyLower (s : String) : String := ⟨s.data.map Char.toLower⟩

/-- Python `s.upper()` (ASCII case folding). -/
def pyUpper (s : String) : String := ⟨s.data.map Char.toUpper⟩

/-- Python slice `s[:n]`. -/
def strTake (s : String) (n : Nat) : String := ⟨s.data.take n⟩

/-- Python `s.strip()`. -/
def pyStrip (s : String) : String :=
  ⟨(((s.data.dropWhile pyIsSpace).reverse).dropWhile pyIsSpace).reverse⟩

/-- Worker for `pySplitOn`: scans `l`, cutting at every occurrence of
`s0 :: srest`.  The `fuel` argument only makes the recursion structural;
it is always called with `fuel ≥ l.length`, and every step consumes at
least one element of `l`, so the fallback branch is never reached. -/
def splitOnAux (s0 : Char) (srest : List Char) :
    Nat → List Char → List Char → List (List Char)
  | 0, l, acc => [acc.reverse ++ l]
  | fuel + 1, l, acc =>
    match l with
    | [] => [acc.reverse]
    | c :: t =>
      if leadsWith (s0 :: srest) (c :: t) then
        acc.reverse :: splitOnAux s0 srest fuel (t.drop srest.length) []
      else
        splitOnAux s0 srest fuel t (c :: acc)

/-- Python `s.split(sep)` for a non-empty separator: splits at every
non-overlapping occurrence, left to right, keeping empty fields. -/
def pySplitOn (s sep : String) : List String :=
  match sep.data with
  | [] => [s]
  | c :: rest => (splitOnAux c rest s.data.length s.data []).map (fun l => ⟨l⟩)

/-- Split a char list at every char satisfying `p`, keeping empty
pieces (the behaviour of splitting at each separator char). -/
def splitChars (p : Char → Bool) : List Char → List Char → List (List Char)
  | [], acc => [acc.reverse]
  | c :: t, acc =>
    if p c then acc.reverse :: splitChars p t []
    else splitChars p t (c :: acc)

/-- Python `s.split()` (no argument): split on whitespace runs,
discarding empty fields. -/
def pySplitWs (s : String) : List String :=
  ((splitChars pyIsSpace s.data []).map (fun l => (⟨l⟩ : String))).filter
    (fun t => t ≠ "")

/-- Python `s.replace(old, new)` for a non-empty `old`. -/
def pyReplace (s old new : String) : String :=
  ⟨List.intercalate new.data ((pySplitOn s old).map String.data)⟩

/-- Python `s.isdigit()` for ASCII text: non-empty and all digits. -/
def pyIsDigit (s : String) : Bool :=
  !s.data.isEmpty && s.data.all Char.isDigit

/-- Digit run with the single-underscore grouping Python's `int()`
accepts between digits (`int("1_2") = 12`, `int("1__2")` raises). -/
def intDigitsGo (acc : Nat) : List Char → Option Nat
  | [] => some acc
  | '_' :: d :: rest =>
    if d.isDigit then intDigitsGo (acc * 10 + (d.toNat - 48)) rest else none
  | d :: rest =>
    if d.isDigit then intDigitsGo (acc * 10 + (d.toNat - 48)) rest else none

/-- Value of a non-empty digit sequence, `none` if malformed. -/
def intDigits : List Char → Option Nat
  | [] => none
  | c :: rest =>
    if c.isDigit then intDigitsGo (c.toNat - 48) rest else none

/-- Python `int(s)` on an already-stripped token: optional sign followed
by digits (with Python's underscore grouping); `none` models the
`ValueError`. -/
def pyParseInt (s : String) : Option Int :=
  match s.data with
  | '+' :: rest => (intDigits rest).map Int.ofNat
  | '-' :: rest => (intDigits rest).map (fun n => -(n : Int))
  | l => (intDigits l).map Int.ofNat

/-! ## Python dict model

ONT records are Python dicts with string keys (`Rec`); the table of
records per port is a dict keyed by ONT id (`Dict`).  Both are
insertion-ordered association lists with in-place update, exactly the
observable behaviour of a Python `dict`. -/

/-- Value stored in an ONT record: `null` is Python `None`; `float`
carries the cleaned decimal text accepted by Python `float()`. -/
inductive PyVal where
  | null : PyVal
  | str (s : String) : PyVal
  | int (n : Int) : PyVal
  | float (txt : String) : PyVal
deriving DecidableEq, Repr

/-- One ONT record: a Python dict from field name to value. -/
abbrev Rec := List (String × PyVal)

/-- Lookup `r[k]` (`none` = key absent, i.e. Python `KeyError`). -/
def rget : Rec → String → Option PyVal
  | [], _ => none
  | (k, v) :: t, key => if k = key then some v else rget t key

/-- Assignment `r[k] = v`: replaces in place, else appends. -/
def rset : Rec → String → PyVal → Rec
  | [], key, v => [(key, v)]
  | (k, w) :: t, key, v =>
    if k = key then (k, v) :: t else (k, w) :: rset t key v

/-- Python `r.update(kvs)`. -/
def rupdate (r : Rec) (kvs : List (String × PyVal)) : Rec :=
  kvs.foldl (fun acc kv => rset acc kv.1 kv.2) r

/-- Python `r.setdefault(k, v)`. -/
def rsetdefault (r : Rec) (key : String) (v : PyVal) : Rec :=
  if (rget r key).isSome then r else r ++ [(key, v)]

/-- The per-port table of ONT records, keyed by ONT id. -/
abbrev Dict := List (String × Rec)

/-- Lookup `d[k]`. -/
def dget : Dict → String → Option Rec
  | [], _ => none
  | (k, v) :: t, key => if k = key then some v else dget t key

/-- Assignment `d[k] = r`. -/
def dset : Dict → String → Rec → Dict
  | [], key, r => [(key, r)]
  | (k, w) :: t, key, r =>
    if k = key then (k, r) :: t else (k, w) :: dset t key r

/-- Python `list(d.keys())`. -/
def dkeys (d : Dict) : List String := d.map Prod.fst

/-- In-place mutation of the record stored under `key`
(`d[key].update(...)` guarded by `if key in d`). -/
def dapply : Dict → String → (Rec → Rec) → Dict
  | [], _, _ => []
  | (k, r) :: t, key, f =>
    if k = key then (k, f r) :: dapply t key f else (k, r) :: dapply t key f

/-! ## Connection pool (`services/connection_pool.py`)

`_get_ssh_connection` is the only place a physical channel is
established.  The network is an oracle mapping the value of the
`connection_attempts` counter at the time of the attempt to the outcome
of that `ConnectHandler(**config)` call. -/

/-- Mutable per-session registry entry (`self.connections[session_id]`);
`connected` is `connection is not None and alive`. -/
structure SessionData where
  connected : Bool
  connection_attempts : Nat
  last_error : Option String
  current_context : String
deriving DecidableEq, Repr

/-- Registry entry as first created by `get_connection`. -/
def initSessionData : SessionData :=
  { connected := false, connection_attempts := 0, last_error := none,
    current_context := "global" }

/-- Outcome of one `ConnectHandler` network connection attempt. -/
inductive NetOutcome where
  | ok : NetOutcome
  | fail (msg : String) : NetOutcome
deriving DecidableEq, Repr

/-- Timeout used for a connection attempt
(`connection_config['timeout']` after the adjustment at attempt > 1). -/
def connTimeout (base : Nat) (attempts : Nat) : Nat :=
  if attempts > 1 then min (base + 10) 60 else base

/-- `ConnectionPool._get_ssh_connection`.  Returns the updated registry
entry, the result (`.error` = the exception propagated to the caller),
and the number of network connection attempts this call issued (0 or 1).
`net n` is the outcome of the `ConnectHandler` call made while
`connection_attempts = n`. -/
def getSshConnection (net : Nat → NetOutcome) (s : SessionData) :
    SessionData × Except String Unit × Nat :=
  if s.connected then (s, Except.ok (), 0)
  else
    let attempts := s.connection_attempts + 1
    match net attempts with
    | NetOutcome.ok =>
      ({ s with connected := true, connection_attempts := attempts,
                current_context := "config", last_error := none },
       Except.ok (), 1)
    | NetOutcome.fail msg =>
      let s1 := { s with connection_attempts := attempts, last_error := some msg }
      if attempts ≥ 3 then
        (s1,
         Except.error ("No se pudo establecer conexión después de " ++
           toString attempts ++ " intentos: " ++ msg),
         1)
      else
        (s1, Except.error msg, 1)

/-- State of a session after `n` consecutive calls to
`_get_ssh_connection` against the network oracle `net`, starting from a
freshly registered entry. -/
def sessionAfterCalls (net : Nat → NetOutcome) : Nat → SessionData
  | 0 => initSessionData
  | n + 1 => (getSshConnection net (sessionAfterCalls net n)).1

/-- A network on which every connection attempt fails. -/
def netAllFail : Nat → NetOutcome := fun _ => NetOutcome.fail "boom"

/-- A network on which attempts 1-3 fail and attempt 4 succeeds. -/
def netFailThenOk : Nat → NetOutcome :=
  fun n => if n ≤ 3 then NetOutcome.fail "boom" else NetOutcome.ok

/-! ## CLI session context machine (`SessionConnection`)

`enter_interface` / `exit_interface` track the device mode in
`current_context`.  The physical channel is assumed live (the claims
about these transitions are about context tracking, not connection
establishment); `outEnter` / `outQuit` are the device's replies read
after writing the interface-entry / exit command. -/

/-- `SessionConnection.enter_interface(tarjeta)`: returns the context
after the call together with `.ok` or the raised protocol error. -/
def enterInterface (ctx : String) (tarjeta : String) (outEnter : String) :
    String × Except String Unit :=
  let target := "interface-gpon-0/" ++ tarjeta
  if ctx = target then (ctx, Except.ok ())
  else
    let ctx1 := if pyStartsWith ctx "interface" then "config" else ctx
    if pyIn "#" outEnter then (target, Except.ok ())
    else (ctx1, Except.error ("No se pudo entrar a la interfaz gpon 0/" ++ tarjeta))

/-- `SessionConnection.exit_interface()`: writes `quit` only when the
tracked context is an interface context, and resets the context to
`config` only when the reply shows a config prompt (both `)` and `#`). -/
def exitInterface (ctx : String) (outQuit : String) : String :=
  if pyStartsWith ctx "interface" then
    if pyIn ")" outQuit && pyIn "#" outQuit then "config" else ctx
  else ctx

/-! ## Parameter validation (`ONTService._validate_parameters`) -/

/-- Language of the regex `1[0-7]|[1-9]` (board/tarjeta core). -/
def tarjetaPattern (s : String) : Bool :=
  s ∈ ["10", "11", "12", "13", "14", "15", "16", "17",
       "1", "2", "3", "4", "5", "6", "7", "8", "9"]

/-- Language of the regex `1[0-6]|[0-9]` (port/puerto core). -/
def puertoPattern (s : String) : Bool :=
  s ∈ ["10", "11", "12", "13", "14", "15", "16",
       "0", "1", "2", "3", "4", "5", "6", "7", "8", "9"]

/-- Python `re.match(r'^(...)$', s)`: anchored full match, except that
Python's `$` also matches just before one trailing newline. -/
def reFullMatch (body : String → Bool) (s : String) : Bool :=
  body s || (s.data.getLast? == some '\n' && body ⟨s.data.dropLast⟩)

/-- `ONTService._validate_parameters(tarjeta, puerto)`. -/
def validateParameters (tarjeta puerto : String) : Bool :=
  reFullMatch tarjetaPattern tarjeta && reFullMatch puertoPattern puerto

/-! ## Autofind parsing (`_parse_autofind_data` and helpers) -/

/-- `ONTService._detect_autofind_format`. -/
def detectAutofindFormat (output : String) : String :=
  if pyIn "OnuIndex" output && pyIn "gpon-onu_" output then "table"
  else if pyIn "Number:" output && pyIn "F/S/P:" output then "blocks"
  else "unknown"

/-- One autofind record: the dict literal built by `_parse_table_line`
(same fixed key set also used for block-format records). -/
structure AutofindOnt where
  number : String
  fsp : String
  board : String
  port : String
  sn : String
  sn_hex : String
  state : String
  pon_type : String
  vendor_id : String
  type : String
  ont_version : String
  software_version : String
  equipment_id : String
  autofind_time : String
  password : String
  loid : String
deriving DecidableEq, Repr

/-- Serial-number vendor prefix `sn[:4].upper()`. -/
def snVendor (sn : String) : String := pyUpper (strTake sn 4)

/-- `ONTService._detect_pon_type_from_sn`. -/
def detectPonTypeFromSn (sn : String) : String :=
  if sn = "" ∨ sn.length < 4 then "GPON"
  else
    let vendor := snVendor sn
    if vendor ∈ ["HWTX", "ZTEX"] then "XG-PON"
    else if vendor ∈ ["HWTC", "GPTF", "MONU", "VSOL", "ZTEG", "ALCL"]
            ∨ pyStartsWith vendor "D031" = true then "GPON"
    else "GPON"

/-- `ONTService._parse_table_line`.  `none` models both the explicit
`return None` paths and the `IndexError`/`ValueError` branch the
function catches (e.g. unpacking `fsp_part.split(':')` into two names
when the split has a third field). -/
def parseTableLine (line : String) : Option AutofindOnt :=
  match pySplitWs line with
  | onu_index :: sn :: rest =>
    let state := match rest with | s :: _ => s | [] => "unknown"
    if pyIn "gpon-onu_" onu_index then
      match (pySplitOn onu_index "gpon-onu_").drop 1 with
      | fsp_part :: _ =>
        let fi : Option (String × String) :=
          if pyIn ":" fsp_part then
            match pySplitOn fsp_part ":" with
            | [f, i] => some (f, i)
            | _ => none
          else some (fsp_part, "1")
        match fi with
        | none => none
        | some (fsp, ont_id) =>
          match pySplitOn fsp "/" with
          | [_frame, slot, port] =>
            if sn.length ≥ 8 then
              some { number := ont_id, fsp := fsp, board := slot, port := port,
                     sn := sn, sn_hex := sn, state := state,
                     pon_type := detectPonTypeFromSn sn,
                     vendor_id := if sn.length ≥ 4 then strTake sn 4 else "Unknown",
                     type := "Unknown", ont_version := "", software_version := "",
                     equipment_id := "", autofind_time := "", password := "",
                     loid := "" }
            else none
          | _ => none
      | [] => none
    else none
  | _ => none

/-- One line step of `_parse_table_format`'s loop: state is
(`data_started`, accumulated records). -/
def tableStep (st : Bool × List AutofindOnt) (rawLine : String) :
    Bool × List AutofindOnt :=
  let line := pyStrip rawLine
  if line = "" then st
  else if pyIn "---" line then (true, st.2)
  else if pyIn "OnuIndex" line || pyIn "Sn" line || pyIn "State" line then st
  else if st.1 && pyIn "gpon-onu_" line then
    match parseTableLine line with
    | some r => (st.1, st.2 ++ [r])
    | none => st
  else st

/-- `ONTService._parse_table_format`. -/
def parseTableFormat (output : String) : List AutofindOnt :=
  ((pySplitOn output "\n").foldl tableStep (false, [])).2

/-- Modelled from the spec: `_split_by_ont_blocks` is called by
`_parse_blocks_format` (line 291) but its definition is absent from the
repository source.  Per §4.3 it is a tolerant fallback that cuts the
payload into per-ONT text blocks when no separator line is present;
blank-line-separated blocks are the natural reading. -/
def splitByOntBlocks (output : String) : List String :=
  pySplitOn output "\n\n"

/-- Modelled from the spec: `_parse_autofind_block` is called by
`_parse_blocks_format` (line 301) but its definition is absent from the
repository source.  Per §4.3 it parses one `Number:`/`F/S/P:` block of
`display ont autofind all` output into a record, skipping a malformed
block (`none`) rather than raising: each field sits on a `Key : Value`
line, the F/S/P triple gives frame/board/port, and a block without a
recognizable serial number is rejected. -/
def parseAutofindBlock (block : String) : Option AutofindOnt :=
  let lines := (pySplitOn block "\n").map pyStrip
  let field := fun (key : String) =>
    (lines.filterMap (fun l =>
      if pyIn key l then ((pySplitOn l key).drop 1).head?.map pyStrip else none)).head?
  match field "F/S/P:", field "SN:" with
  | some fsp, some sn =>
    (match pySplitOn fsp "/" with
     | [_frame, slot, port] =>
       if sn.length ≥ 8 then
         some { number := (field "Number:").getD "", fsp := fsp, board := slot,
                port := port, sn := sn, sn_hex := sn,
                state := (field "State:").getD "unknown",
                pon_type := detectPonTypeFromSn sn,
                vendor_id := if sn.length ≥ 4 then strTake sn 4 else "Unknown",
                type := (field "Type:").getD "Unknown",
                ont_version := (field "Ont Version:").getD "",
                software_version := (field "Software Version:").getD "",
                equipment_id := (field "EquipmentID:").getD "",
                autofind_time := (field "Time:").getD "",
                password := (field "Password:").getD "",
                loid := (field "Loid:").getD "" }
       else none
     | _ => none)
  | _, _ => none

/-- `ONTService._parse_blocks_format` (separator handling from the
source, lines 271-307; the two helpers it calls are spec-modelled
above). -/
def parseBlocksFormat (output : String) : List AutofindOnt :=
  let seps := [⟨List.replicate 76 '-'⟩, ⟨List.replicate 69 '-'⟩,
               (⟨List.replicate 50 '═'⟩ : String)]
  let blocks :=
    match seps.find? (fun sep => pyIn sep output) with
    | some sep => pySplitOn output sep
    | none => [output]
  let blocks := if blocks.length = 1 then splitByOntBlocks output else blocks
  blocks.foldl (fun acc block =>
    if pyStrip block = "" then acc
    else
      match parseAutofindBlock (pyStrip block) with
      | some r => acc ++ [r]
      | none => acc) []

/-- `ONTService._parse_autofind_data`: returns the record list and the
diagnostics emitted (the `logger.warning` calls).  Total by
construction: no payload makes it raise. -/
def parseAutofindData (output : String) : List AutofindOnt × List String :=
  if output = "" || (pyStrip output).length < 10 then
    ([], ["Output de autofind vacío o muy corto"])
  else
    match detectAutofindFormat output with
    | "table" => (parseTableFormat output, [])
    | "blocks" => (parseBlocksFormat output, [])
    | _ => ([], ["Formato de autofind no reconocido"])

/-! ## Safe numeric parsing (`_safe_float_parse` / `_safe_int_parse`,
the later duplicate definitions at lines 730-750, which shadow the
earlier pair) -/

/-- Python `float(s)` acceptance for a string over digits, `-`, `.`:
`digits+ ['.' digits*]` or `'.' digits+`. -/
def floatBody (l : List Char) : Bool :=
  match l with
  | '.' :: t => !t.isEmpty && t.all Char.isDigit
  | t =>
    let d := t.takeWhile Char.isDigit
    let r := t.dropWhile Char.isDigit
    !d.isEmpty &&
      (r.isEmpty || (match r with
        | '.' :: t2 => t2.all Char.isDigit
        | _ => false))

/-- `float(s)` acceptance including one optional leading minus. -/
def floatOk (l : List Char) : Bool :=
  match l with
  | '-' :: t => floatBody t
  | t => floatBody t

/-- `ONTService._safe_float_parse`: strip every char that is not a
digit, `-` or `.`; accept the remainder when Python `float()` would;
the float value is carried as its cleaned text. -/
def safeFloatParse (value : String) : Option String :=
  let cleaned : String := ⟨value.data.filter (fun c => c.isDigit || c == '-' || c == '.')⟩
  if cleaned ≠ "" ∧ cleaned ≠ "-" ∧ floatOk cleaned.data = true then some cleaned
  else none

/-- `ONTService._safe_int_parse`: strip every non-digit, parse the rest. -/
def safeIntParse (value : String) : Option Int :=
  let cleaned := value.data.filter Char.isDigit
  if cleaned.isEmpty then none else (intDigits cleaned).map Int.ofNat

/-- Wrap an optional float text as a record value. -/
def floatVal : Option String → PyVal
  | none => PyVal.null
  | some t => PyVal.float t

/-- Wrap an optional int as a record value. -/
def intVal : Option Int → PyVal
  | none => PyVal.null
  | some n => PyVal.int n

/-- Wrap an optional string as a record value. -/
def strVal : Option String → PyVal
  | none => PyVal.null
  | some s => PyVal.str s

/-! ## ZTE state parsing (`_parse_zte_state_data`) -/

/-- State classification for one ZTE state-table row (lines 462-476). -/
def zteEstado (admin o7 phase : String) : String :=
  if admin = "disable" then "disabled"
  else if phase = "working" ∧ o7 = "operation" then "online"
  else if pyLower phase = "dyinggasp" ∨ pyIn "dying" (pyLower phase) = true then "dying_gasp"
  else if phase = "LOS" ∨ phase = "los" then "LOS"
  else if phase = "Offline" then "offline"
  else "offline"

/-- The dict literal `onts[ont_id] = {...}` of `_parse_zte_state_data`
(lines 478-490), keys in source order. -/
def zteRec (ont_id tarjeta puerto estado onu_index : String) : Rec :=
  [("id", PyVal.str ont_id), ("tarjeta", PyVal.str tarjeta),
   ("puerto", PyVal.str puerto), ("estado", PyVal.str estado),
   ("last_down_cause", PyVal.null), ("last_down_time", PyVal.null),
   ("descripcion", PyVal.str onu_index), ("ont_rx", PyVal.null),
   ("olt_rx", PyVal.null), ("temperature", PyVal.null),
   ("distance", PyVal.null)]

/-- One line of `_parse_zte_state_data`'s loop: state is
(`data_started`, the dict built so far). -/
def zteStateStep (tarjeta puerto : String) (st : Bool × Dict) (rawLine : String) :
    Bool × Dict :=
  let line := pyStrip rawLine
  if pyIn "---" line then (true, st.2)
  else if pyIn "OnuIndex" line || pyIn "Admin State" line then st
  else if st.1 && pyIn "gpon-onu_" line then
    match pySplitWs line with
    | onu_index :: admin :: _omcc :: o7 :: rest =>
      let phase := match rest with | p :: _ => p | [] => "unknown"
      if pyIn ":" onu_index then
        match (pySplitOn onu_index ":").drop 1 with
        | ont_id :: _ =>
          (st.1, dset st.2 ont_id
            (zteRec ont_id tarjeta puerto (zteEstado admin o7 phase) onu_index))
        | [] => st
      else st
    | _ => st
  else st

/-- `ONTService._parse_zte_state_data` (the dict it fills in). -/
def parseZteStateData (output tarjeta puerto : String) : Dict :=
  ((pySplitOn output "\n").foldl (zteStateStep tarjeta puerto) (false, [])).2

/-! ## ZTE optical power parsing (`_parse_zte_power_data`) -/

/-- Scan of one `up`/`down` line's fields for the `Rx` reading
(lines 512-539): `.ok none` = no `Rx` token, `.ok (some s)` = the raw
reading text, `.error` = the uncaught `IndexError` of
`'Rx'.split(':')[1]` when a bare `Rx` is the last field. -/
def rxScan : List String → Except Unit (Option String)
  | [] => Except.ok none
  | p :: rest =>
    if pyStartsWith p "Rx:" || p == "Rx" then
      if p == "Rx" && !rest.isEmpty then
        match rest with
        | q :: _ => Except.ok (some (pyStrip (pyReplace (pyReplace q ":" "") "(dbm)" "")))
        | [] => Except.error ()
      else
        match (pySplitOn p ":").drop 1 with
        | t :: _ => Except.ok (some (pyStrip (pyReplace t "(dbm)" "")))
        | [] => Except.error ()
    else rxScan rest

/-- The line loop of `_parse_zte_power_data`, accumulating the parsed
`ont_rx` / `olt_rx` values; an `.error` aborts the whole parse (the
function has no handler of its own). -/
def ztePowerScan : List String → Option String → Option String →
    Except Unit (Option String × Option String)
  | [], ontRx, oltRx => Except.ok (ontRx, oltRx)
  | rawLine :: rest, ontRx, oltRx =>
    let line := pyStrip rawLine
    if pyStartsWith line "up" then
      match rxScan (pySplitWs line) with
      | Except.error e => Except.error e
      | Except.ok none => ztePowerScan rest ontRx oltRx
      | Except.ok (some s) => ztePowerScan rest ontRx (safeFloatParse s)
    else if pyStartsWith line "down" then
      match rxScan (pySplitWs line) with
      | Except.error e => Except.error e
      | Except.ok none => ztePowerScan rest ontRx oltRx
      | Except.ok (some s) => ztePowerScan rest (safeFloatParse s) oltRx
    else ztePowerScan rest ontRx oltRx

/-- `ONTService._parse_zte_power_data`: updates `ont_rx` / `olt_rx` of
the record `ont_id` (update applied only `if ont_id in onts`). -/
def parseZtePowerData (output : String) (onts : Dict) (ont_id : String) :
    Except Unit Dict :=
  match ztePowerScan (pySplitOn output "\n") none none with
  | Except.error e => Except.error e
  | Except.ok (ontRx, oltRx) =>
    Except.ok (if (dget onts ont_id).isSome then
      dapply onts ont_id (fun r =>
        rupdate r [("ont_rx", floatVal ontRx), ("olt_rx", floatVal oltRx)])
    else onts)

/-! ## ZTE per-port query (`_obtener_onts_zte` body) -/

/-- The null assignment of lines 354-360, applied when fetching or
parsing optical power for `ont_id` raised. -/
def fourNull (onts : Dict) (ont_id : String) : Dict :=
  if (dget onts ont_id).isSome then
    dapply onts ont_id (fun r =>
      rupdate r [("ont_rx", PyVal.null), ("olt_rx", PyVal.null),
                 ("temperature", PyVal.null), ("distance", PyVal.null)])
  else onts

/-- The per-ONT optical loop of `_obtener_onts_zte` (lines 343-360):
`powerOut oid` is the reply to the power command for `oid`, `none` if
the transport call raised. -/
def ztePowerLoop (powerOut : String → Option String) (onts : Dict) : Dict :=
  (dkeys onts).foldl (fun d oid =>
    match powerOut oid with
    | none => fourNull d oid
    | some out =>
      match parseZtePowerData out d oid with
      | Except.ok d2 => d2
      | Except.error _ => fourNull d oid) onts

/-- Line scan of `_enriquecer_con_descripciones_zte` (lines 1261-1272):
the replacement `descripcion` value, if a `Name:`/`Description:` line
is found. -/
def descScan : List String → Option PyVal
  | [] => none
  | line :: rest =>
    if pyIn "Name:" line then
      match (pySplitOn line "Name:").drop 1 with
      | t :: _ => some (PyVal.str (pyStrip t))
      | [] => none
    else if pyIn "Description:" line then
      match (pySplitOn line "Description:").drop 1 with
      | t :: _ =>
        let d := pyStrip t
        some (PyVal.str (if d.length > 100 then strTake d 97 ++ "..." else d))
      | [] => none
    else descScan rest

/-- `_enriquecer_con_descripciones_zte` plus the copy-back loop of
`_obtener_onts_zte` (lines 362-374): per ONT, a failed detail command
(`descOut oid = none`) stores the fallback name, a reply without a
matching line leaves `descripcion` unchanged. -/
def enrichDesc (descOut : String → Option String) (onts : Dict) : Dict :=
  (dkeys onts).foldl (fun d oid =>
    match descOut oid with
    | none => dapply d oid (fun r => rset r "descripcion" (PyVal.str ("ONT-" ++ oid)))
    | some out =>
      match descScan (pySplitOn out "\n") with
      | some v => dapply d oid (fun r => rset r "descripcion" v)
      | none => d) onts

/-- `ONTService._obtener_onts_zte`: the record dict and the trace of
device commands issued.  `stateOut` is the reply to the state command
(`none` if that transport call raised, upon which the incomplete dict is
returned, line 378-380). -/
def obtenerOntsZte (tarjeta puerto : String) (stateOut : Option String)
    (powerOut descOut : String → Option String) : Dict × List String :=
  let stateCmd := "show gpon onu state gpon-olt_1/" ++ tarjeta ++ "/" ++ puerto
  match stateOut with
  | none => ([], [stateCmd])
  | some out =>
    let onts := parseZteStateData out tarjeta puerto
    let powerCmds := (dkeys onts).map (fun oid =>
      "show pon power attenuation gpon-onu_1/" ++ tarjeta ++ "/" ++ puerto ++ ":" ++ oid)
    let onts2 := ztePowerLoop powerOut onts
    let descCmds := (dkeys onts2).map (fun oid =>
      "show gpon onu detail-info gpon-onu_1/" ++ tarjeta ++ "/" ++ puerto ++ ":" ++ oid)
    (enrichDesc descOut onts2, stateCmd :: (powerCmds ++ descCmds))

/-- `ONTService.obtener_onts` down to the record dicts (the final
`ONT(**data)` object construction lives in `models/ont_model.py`, which
is not part of the analysed sources; the claims about this query are
about the records and the I/O trace).  On a validation failure the
`except` block at lines 56-62 attempts `exit_interface()`, which writes
`quit` when the tracked context is an interface context, before
re-raising the `ValueError`. -/
def obtenerOnts (ctx tarjeta puerto : String) (stateOut : Option String)
    (powerOut descOut : String → Option String) : Except String Dict × List String :=
  if !(validateParameters tarjeta puerto) then
    (Except.error ("Parámetros inválidos: tarjeta=" ++ tarjeta ++ ", puerto=" ++ puerto),
     if pyStartsWith ctx "interface" then ["quit"] else [])
  else
    let r := obtenerOntsZte tarjeta puerto stateOut powerOut descOut
    (Except.ok r.1, r.2)

/-! ## Huawei summary/optical parsing (`_parse_ont_data` and helpers) -/

/-- Prefix match of `re.match(r'\d{4}-\d{2}-\d{2}', s)`. -/
def matchDatePre (s : String) : Bool :=
  match s.data with
  | a :: b :: c :: d :: '-' :: e :: f :: '-' :: g :: h :: _ =>
    a.isDigit && b.isDigit && c.isDigit && d.isDigit &&
    e.isDigit && f.isDigit && g.isDigit && h.isDigit
  | _ => false

/-- Prefix match of `re.match(r'\d{2}:\d{2}:\d{2}', s)`. -/
def matchTimePre (s : String) : Bool :=
  match s.data with
  | a :: b :: ':' :: c :: d :: ':' :: e :: f :: _ =>
    a.isDigit && b.isDigit && c.isDigit && d.isDigit && e.isDigit && f.isDigit
  | _ => false

/-- The date/time/cause scan over `parts[2:]` of `_parse_summary_data`
(lines 626-636): stops at the first date-shaped field. -/
def scanDateParts : List String → Option (String × Option String × Option String)
  | [] => none
  | p :: rest =>
    if matchDatePre p then
      some (p,
        match rest with
        | q :: r2 =>
          if matchTimePre q then
            (some q,
             match r2 with
             | c :: _ => if c ≠ "-" then some c else none
             | [] => none)
          else (none, none)
        | [] => (none, none))
    else scanDateParts rest

/-- The dict literal `onts[ont_id] = {...}` of `_parse_summary_data`
(lines 641-649). -/
def summaryRec (ont_id tarjeta puerto estado : String)
    (causa ldt : Option String) : Rec :=
  [("id", PyVal.str ont_id), ("tarjeta", PyVal.str tarjeta),
   ("puerto", PyVal.str puerto), ("estado", PyVal.str estado),
   ("last_down_cause", strVal causa), ("last_down_time", strVal ldt),
   ("descripcion", PyVal.str "")]

/-- The `found_desc_start` scan of the description branch
(lines 661-670): fields after the first field containing both `/` and
`-`. -/
def collectDesc : List String → Bool → List String
  | [], _ => []
  | p :: rest, found =>
    if found then p :: collectDesc rest true
    else if pyIn "/" p && pyIn "-" p then collectDesc rest true
    else collectDesc rest false

/-- One line of `_parse_summary_data`'s loop: state is
(`estado_start`, `desc_start`, dict). -/
def summaryStep (tarjeta puerto : String) (st : Bool × Bool × Dict)
    (rawLine : String) : Bool × Bool × Dict :=
  let line := pyStrip rawLine
  if pyIn "ONT  Run     Last" line || pyIn "ONT-ID  Run-state" line then
    (true, false, st.2.2)
  else if pyIn "ONT        SN        Type" line || pyIn "ONT-ID        SN" line then
    (false, true, st.2.2)
  else if st.1 && line ≠ "" && !pyStartsWith line "-" && !pyStartsWith line "ONT" then
    let parts := pySplitWs line
    match parts with
    | p0 :: p1 :: _ =>
      if pyIsDigit p0 then
        let cl :=
          if parts.length > 3 then
            match scanDateParts (parts.drop 2) with
            | some (d, some t, c) => (c, some (d ++ " " ++ t))
            | some (_, none, _) => (none, none)
            | none => (none, none)
          else (none, none)
        (st.1, st.2.1, dset st.2.2 p0 (summaryRec p0 tarjeta puerto p1 cl.1 cl.2))
      else st
    | _ => st
  else if st.2.1 && line ≠ "" && !pyStartsWith line "-" then
    let parts := pySplitWs line
    match parts with
    | p0 :: _ =>
      if parts.length ≥ 6 && pyIsDigit p0 && (dget st.2.2 p0).isSome then
        let ds := collectDesc parts false
        if ds ≠ [] then
          (st.1, st.2.1, dapply st.2.2 p0 (fun r =>
            rset r "descripcion" (PyVal.str (String.intercalate "_" ds))))
        else st
      else st
    | _ => st
  else st

/-- `ONTService._parse_summary_data` (filling the dict `d0`, which is
always empty at its one call site). -/
def parseSummaryData (output : String) (d0 : Dict) (tarjeta puerto : String) : Dict :=
  ((pySplitOn output "\n").foldl (summaryStep tarjeta puerto) (false, false, d0)).2.2

/-- One line of `_parse_optical_data`'s loop.  A row of exactly six
fields raises `IndexError` at `parts[6]` before the record update and
is skipped by the handler, so an update needs at least seven fields. -/
def opticalStep (onts : Dict) (rawLine : String) : Dict :=
  let line := pyStrip rawLine
  if line = "" || pyStartsWith line "-" || pyIn "ONT" line then onts
  else
    match pySplitWs line with
    | p0 :: p1 :: _p2 :: p3 :: p4 :: _p5 :: p6 :: _ =>
      if pyIsDigit p0 then
        if (dget onts p0).isSome then
          dapply onts p0 (fun r =>
            rupdate r [("ont_rx", floatVal (safeFloatParse p1)),
                       ("olt_rx", floatVal (safeFloatParse p3)),
                       ("temperature", intVal (safeIntParse p4)),
                       ("distance", intVal (safeIntParse p6))])
        else onts
      else onts
    | _ => onts

/-- `ONTService._parse_optical_data`. -/
def parseOpticalData (output : String) (onts : Dict) : Dict :=
  (pySplitOn output "\n").foldl opticalStep onts

/-- The six `setdefault` calls of `_parse_ont_data` (lines 574-581). -/
def setdefSix (r : Rec) : Rec :=
  rsetdefault (rsetdefault (rsetdefault (rsetdefault (rsetdefault (rsetdefault
    r "ont_rx" PyVal.null) "olt_rx" PyVal.null) "temperature" PyVal.null)
    "distance" PyVal.null) "last_down_cause" PyVal.null) "last_down_time" PyVal.null

/-- `ONTService._parse_ont_data` (Huawei): summary parse, optional
optical parse, then the defaulting loop over every record. -/
def parseOntData (output_summary output_optical tarjeta puerto : String) : Dict :=
  if output_summary = "" || (pyStrip output_summary).length < 10 then []
  else
    let onts := parseSummaryData output_summary [] tarjeta puerto
    let onts2 :=
      if output_optical ≠ "" ∧ (pyStrip output_optical).length ≥ 10 then
        parseOpticalData output_optical onts
      else onts
    onts2.map (fun e => (e.1, setdefSix e.2))

/-! ## Workflows (`autorizar_ont`, `eliminar_ont`,
`obtener_siguiente_onu_id`)

Every `execute_command` call in these workflows is modelled as
transport-successful — the claims about them either condition on a
successful run or are about the device's textual reply, which the
`reply` oracle provides per command. -/

/-- Result dict returned by `autorizar_ont` / `eliminar_ont`. -/
structure CmdResult where
  status : String
  message : String
  onu_id : String
  commands_executed : List String
deriving DecidableEq, Repr

/-- Python `re.sub(r'[^A-Za-z0-9]', '', s)` (the SN cleanup). -/
def pyCleanAlnum (s : String) : String :=
  ⟨s.data.filter (fun c => c.isAlpha || c.isDigit)⟩

/-- The `commands_executed` list a fully successful `autorizar_ont` run
returns (lines 1432-1528): `cmd1`-`cmd3`, the optional `name` command,
`cmd5`-`cmd12`, the bridging-only `cmd13`, and `write`; the `exit`
navigation commands are issued but never appended. -/
def autorizarCmds (board port onu_id sn onu_type vlan name onu_mode : String) :
    List String :=
  let sn_clean := pyCleanAlnum sn
  ["interface gpon-olt_1/" ++ board ++ "/" ++ port,
   "onu " ++ onu_id ++ " type " ++ onu_type ++ " sn " ++ sn_clean,
   "interface gpon-onu_1/" ++ board ++ "/" ++ port ++ ":" ++ onu_id]
  ++ (if name ≠ "" then ["name " ++ pyReplace name " " "_"] else [])
  ++ ["sn-bind enable sn",
      "tcont 1 name T1 profile UL1G",
      "gemport 1 unicast tcont 1 dir both",
      "encrypt 1 enable downstream",
      "switchport mode hybrid vport 1",
      "service-port 1 vport 1 user-vlan " ++ vlan ++ " vlan " ++ vlan,
      "pon-onu-mng gpon-onu_1/" ++ board ++ "/" ++ port ++ ":" ++ onu_id,
      "service ServiceName type internet gemport 1 vlan " ++ vlan]
  ++ (if pyLower onu_mode = "bridging" then
        ["vlan port eth_0/1 mode tag vlan " ++ vlan] else [])
  ++ ["write"]

/-- `ONTService.autorizar_ont` under transport-successful commands:
validation of the six mandatory parameters (Python truthiness of the
strings), then the full command sequence; `zone` is accepted but unused
by the source (its use is commented out at line 1506). -/
def autorizarOnt (board port onu_id sn onu_type vlan _zone name onu_mode : String) :
    Except String CmdResult :=
  if board = "" ∨ port = "" ∨ onu_id = "" ∨ sn = "" ∨ onu_type = "" ∨ vlan = "" then
    Except.error "Faltan parametros obligatorios"
  else
    Except.ok
      { status := "success",
        message := "ONT autorizada exitosamente en posición " ++ onu_id,
        onu_id := onu_id,
        commands_executed := autorizarCmds board port onu_id sn onu_type vlan name onu_mode }

/-- `ONTService.eliminar_ont`.  `reply cmd` is the device's text reply
to `cmd` (every transport call returns normally).  Returns the result
or the raised error, together with the trace of commands written: on a
domain error marker in the removal reply, the raise at line 1582
propagates through the cleanup handler (which writes two `exit`s) and
no `write` is issued. -/
def eliminarOnt (reply : String → String) (board port ont_id : String) :
    Except String CmdResult × List String :=
  if board = "" ∨ port = "" ∨ ont_id = "" then
    (Except.error "Faltan parametros obligatorios", [])
  else
    let cmd1 := "interface gpon-olt_1/" ++ board ++ "/" ++ port
    let cmd2 := "no onu " ++ ont_id
    let out := reply cmd2
    if pyIn "error" (pyLower out) || pyIn "invalid" (pyLower out) then
      (Except.error ("Error al eliminar ONT: " ++ out),
       ["configure terminal", cmd1, cmd2, "exit", "exit"])
    else
      (Except.ok
        { status := "success",
          message := "ONT " ++ ont_id ++ " eliminada exitosamente",
          onu_id := ont_id,
          commands_executed := ["configure terminal", cmd1, cmd2, "write"] },
       ["configure terminal", cmd1, cmd2, "exit", "exit", "write"])

/-- The used-id collection of `obtener_siguiente_onu_id`
(lines 1387-1400): ids of the `onu <id> type ...` lines of the running
config, as Python `int`s. -/
def usedOnuIds (output : String) : List Int :=
  (pySplitOn output "\n").foldl (fun acc rawLine =>
    let line := pyStrip rawLine
    if pyStartsWith line "onu " && pyIn " type " line then
      match pySplitWs line with
      | _ :: p1 :: _ =>
        match pyParseInt p1 with
        | some n => acc ++ [n]
        | none => acc
      | _ => acc
    else acc) []

/-- `ONTService.obtener_siguiente_onu_id` given the running-config
reply: first id in `range(1, 129)` not in `used_ids`, else the
port-full error. -/
def obtenerSiguienteOnuId (output : String) : Except String Nat :=
  match (List.range' 1 128).find? (fun i => decide (Int.ofNat i ∉ usedOnuIds output)) with
  | some i => Except.ok i
  | none => Except.error "Puerto lleno: no hay IDs disponibles"

/-! ## Helper lemmas -/

/-- Strings whose first characters differ are different. -/
theorem strHeadNe (s t : String) (h : s.data.head? ≠ t.data.head?) : s ≠ t :=
  fun e => h (by rw [e])

/-- Every context string of the shape `interface-gpon-0/<x>` passes the
`startswith("interface")` test, whatever `x` is. -/
theorem startsWithInterfaceGpon (x : String) :
    pyStartsWith ("interface-gpon-0/" ++ x) "interface" = true := by
  simp [pyStartsWith, String.data_append, leadsWith]

/-- A fold preserves any invariant its step preserves. -/
theorem foldlPreserves {α β : Type} {P : α → Prop} {f : α → β → α}
    (h : ∀ a b, P a → P (f a b)) : ∀ (l : List β) (a : α), P a → P (l.foldl f a)
  | [], _, ha => ha
  | b :: t, a, ha => foldlPreserves h t (f a b) (h a b ha)

/-- Lookup of the assigned key after record assignment. -/
theorem rget_rset_self (r : Rec) (key : String) (v : PyVal) :
    rget (rset r key v) key = some v := by
  induction r with
  | nil => simp [rset, rget]
  | cons e t ih =>
    obtain ⟨k0, w⟩ := e
    by_cases h : k0 = key
    · subst h; simp [rset, rget]
    · simp [rset, rget, h, ih]

/-- Lookup of any other key after record assignment. -/
theorem rget_rset_other (r : Rec) (key : String) (v : PyVal) (k : String)
    (hk : k ≠ key) : rget (rset r key v) k = rget r k := by
  induction r with
  | nil => simp [rset, rget, Ne.symm hk]
  | cons e t ih =>
    obtain ⟨k0, w⟩ := e
    by_cases h : k0 = key
    · subst h
      by_cases h2 : k0 = k <;> simp_all [rset, rget]
    · by_cases h2 : k0 = k <;> simp_all [rset, rget]

/-- Assignment never removes a key. -/
theorem rget_rset_isSome (r : Rec) (key : String) (v : PyVal) (k : String)
    (h : (rget r k).isSome = true) : (rget (rset r key v) k).isSome = true := by
  by_cases hk : k = key
  · subst hk; rw [rget_rset_self]; rfl
  · rw [rget_rset_other r key v k hk]; exact h

/-- Lookup in an appended record. -/
theorem rget_append (r1 r2 : Rec) (k : String) :
    rget (r1 ++ r2) k = if (rget r1 k).isSome then rget r1 k else rget r2 k := by
  induction r1 with
  | nil => simp [rget]
  | cons e t ih =>
    obtain ⟨k0, w⟩ := e
    by_cases h : k0 = k <;> simp_all [rget]

/-- `setdefault` makes its own key present. -/
theorem rget_rsetdefault_self (r : Rec) (k : String) (v : PyVal) :
    (rget (rsetdefault r k v) k).isSome = true := by
  unfold rsetdefault
  by_cases h : (rget r k).isSome <;> simp [h, rget_append, rget]

/-- `setdefault` keeps every present key present. -/
theorem rget_rsetdefault_mono (r : Rec) (k' k : String) (v : PyVal)
    (h : (rget r k').isSome = true) :
    (rget (rsetdefault r k v) k').isSome = true := by
  unfold rsetdefault
  by_cases h0 : (rget r k).isSome <;> simp [h0, rget_append, h]

/-- Lookup of the assigned key after dict assignment. -/
theorem dget_dset_self (d : Dict) (key : String) (r : Rec) :
    dget (dset d key r) key = some r := by
  induction d with
  | nil => simp [dset, dget]
  | cons e t ih =>
    obtain ⟨k0, w⟩ := e
    by_cases h : k0 = key
    · subst h; simp [dset, dget]
    · simp [dset, dget, h, ih]

/-- Lookup of any other key after dict assignment. -/
theorem dget_dset_other (d : Dict) (key : String) (r : Rec) (k : String)
    (hk : key ≠ k) : dget (dset d key r) k = dget d k := by
  induction d with
  | nil => simp [dset, dget, hk]
  | cons e t ih =>
    obtain ⟨k0, w⟩ := e
    by_cases h : k0 = key
    · subst h
      by_cases h2 : k0 = k <;> simp_all [dset, dget]
    · by_cases h2 : k0 = k <;> simp_all [dset, dget]

/-- Lookup of the mutated key after an in-place entry update. -/
theorem dget_dapply_self (d : Dict) (key : String) (f : Rec → Rec) :
    dget (dapply d key f) key = (dget d key).map f := by
  induction d with
  | nil => simp [dapply, dget]
  | cons e t ih =>
    obtain ⟨k0, w⟩ := e
    by_cases h : k0 = key
    · subst h; simp [dapply, dget]
    · simp [dapply, dget, h, ih]

/-- Lookup of any other key after an in-place entry update. -/
theorem dget_dapply_other (d : Dict) (key : String) (f : Rec → Rec) (k : String)
    (hk : k ≠ key) : dget (dapply d key f) k = dget d k := by
  induction d with
  | nil => simp [dapply, dget]
  | cons e t ih =>
    obtain ⟨k0, w⟩ := e
    by_cases h : k0 = key
    · subst h
      by_cases h2 : k0 = k <;> simp_all [dapply, dget]
    · by_cases h2 : k0 = k <;> simp_all [dapply, dget]

/-- The completeness invariant of the spec: all six declared optional
fields are present as keys (their values may be `null`). -/
def hasOptKeys (r : Rec) : Bool :=
  (rget r "ont_rx").isSome && (rget r "olt_rx").isSome &&
  (rget r "temperature").isSome && (rget r "distance").isSome &&
  (rget r "last_down_time").isSome && (rget r "last_down_cause").isSome

/-- Assignment preserves the key-completeness of a record. -/
theorem hasOptKeys_rset (r : Rec) (key : String) (v : PyVal)
    (h : hasOptKeys r = true) : hasOptKeys (rset r key v) = true := by
  simp only [hasOptKeys, Bool.and_eq_true] at h ⊢
  obtain ⟨⟨⟨⟨⟨h1, h2⟩, h3⟩, h4⟩, h5⟩, h6⟩ := h
  exact ⟨⟨⟨⟨⟨rget_rset_isSome r key v _ h1, rget_rset_isSome r key v _ h2⟩,
    rget_rset_isSome r key v _ h3⟩, rget_rset_isSome r key v _ h4⟩,
    rget_rset_isSome r key v _ h5⟩, rget_rset_isSome r key v _ h6⟩

/-- `update` preserves the key-completeness of a record. -/
theorem hasOptKeys_rupdate (kvs : List (String × PyVal)) :
    ∀ (r : Rec), hasOptKeys r = true → hasOptKeys (rupdate r kvs) = true := by
  induction kvs with
  | nil => intro r h; simpa [rupdate] using h
  | cons kv t ih =>
    intro r h
    have : rupdate r (kv :: t) = rupdate (rset r kv.1 kv.2) t := by
      simp [rupdate]
    rw [this]
    exact ih _ (hasOptKeys_rset r kv.1 kv.2 h)

/-- The six `setdefault` calls of `_parse_ont_data` make any record
key-complete. -/
theorem hasOptKeys_setdefSix (r : Rec) : hasOptKeys (setdefSix r) = true := by
  simp only [hasOptKeys, setdefSix, Bool.and_eq_true]
  refine ⟨⟨⟨⟨⟨?_, ?_⟩, ?_⟩, ?_⟩, ?_⟩, ?_⟩
  · exact rget_rsetdefault_mono _ _ _ _ (rget_rsetdefault_mono _ _ _ _
      (rget_rsetdefault_mono _ _ _ _ (rget_rsetdefault_mono _ _ _ _
        (rget_rsetdefault_mono _ _ _ _ (rget_rsetdefault_self _ _ _)))))
  · exact rget_rsetdefault_mono _ _ _ _ (rget_rsetdefault_mono _ _ _ _
      (rget_rsetdefault_mono _ _ _ _ (rget_rsetdefault_mono _ _ _ _
        (rget_rsetdefault_self _ _ _))))
  · exact rget_rsetdefault_mono _ _ _ _ (rget_rsetdefault_mono _ _ _ _
      (rget_rsetdefault_mono _ _ _ _ (rget_rsetdefault_self _ _ _)))
  · exact rget_rsetdefault_mono _ _ _ _ (rget_rsetdefault_mono _ _ _ _
      (rget_rsetdefault_self _ _ _))
  · exact rget_rsetdefault_self _ _ _
  · exact rget_rsetdefault_mono _ _ _ _ (rget_rsetdefault_self _ _ _)

/-- Dict-level invariant: every stored record is key-complete. -/
def recsOK (d : Dict) : Prop :=
  ∀ k r, dget d k = some r → hasOptKeys r = true

/-- `dset` with a key-complete record preserves `recsOK`. -/
theorem recsOK_dset (d : Dict) (key : String) (r : Rec)
    (hd : recsOK d) (hr : hasOptKeys r = true) : recsOK (dset d key r) := by
  intro k r' h
  by_cases hk : key = k
  · subst hk; rw [dget_dset_self] at h; cases h; exact hr
  · rw [dget_dset_other d key r k hk] at h; exact hd k r' h

/-- `dapply` with a completeness-preserving mutation preserves `recsOK`. -/
theorem recsOK_dapply (d : Dict) (key : String) (f : Rec → Rec)
    (hd : recsOK d) (hf : ∀ r, hasOptKeys r = true → hasOptKeys (f r) = true) :
    recsOK (dapply d key f) := by
  intro k r' h
  by_cases hk : k = key
  · subst hk
    rw [dget_dapply_self] at h
    match h0 : dget d k with
    | none => rw [h0] at h; cases h
    | some r0 =>
      rw [h0] at h
      cases h
      exact hf r0 (hd k r0 h0)
  · rw [dget_dapply_other d key f k hk] at h; exact hd k r' h

/-- The record literal of the ZTE state parser is key-complete. -/
theorem hasOptKeys_zteRec (ont_id tarjeta puerto estado onu_index : String) :
    hasOptKeys (zteRec ont_id tarjeta puerto estado onu_index) = true := rfl

/-- One line of the ZTE state loop preserves the dict invariant. -/
theorem zteStateStep_recsOK (tarjeta puerto : String) (st : Bool × Dict)
    (line : String) (h : recsOK st.2) :
    recsOK (zteStateStep tarjeta puerto st line).2 := by
  rcases st with ⟨started, d⟩
  simp only [zteStateStep]
  split
  · exact h
  · split
    · exact h
    · split
      · split
        · split
          · split
            · exact recsOK_dset _ _ _ h (hasOptKeys_zteRec _ _ _ _ _)
            · exact h
          · exact h
        · exact h
      · exact h

/-- Every record the ZTE state parser builds is key-complete. -/
theorem parseZteStateData_recsOK (output tarjeta puerto : String) :
    recsOK (parseZteStateData output tarjeta puerto) := by
  unfold parseZteStateData
  have := foldlPreserves (P := fun st : Bool × Dict => recsOK st.2)
    (f := zteStateStep tarjeta puerto)
    (fun a b ha => zteStateStep_recsOK tarjeta puerto a b ha)
    (pySplitOn output "\n") (false, [])
    (by intro k r hr; cases hr)
  exact this

/-- The null assignment after a failed power fetch preserves the
invariant. -/
theorem fourNull_recsOK (onts : Dict) (oid : String) (h : recsOK onts) :
    recsOK (fourNull onts oid) := by
  unfold fourNull
  split
  · exact recsOK_dapply _ _ _ h (fun r hr => hasOptKeys_rupdate _ r hr)
  · exact h

/-- A successful power parse preserves the invariant. -/
theorem parseZtePowerData_recsOK (out : String) (onts : Dict) (oid : String)
    (d2 : Dict) (h : recsOK onts)
    (hp : parseZtePowerData out onts oid = Except.ok d2) : recsOK d2 := by
  unfold parseZtePowerData at hp
  split at hp
  · cases hp
  · split at hp <;> cases hp
    · exact recsOK_dapply _ _ _ h (fun r hr => hasOptKeys_rupdate _ r hr)
    · exact h

/-- The per-ONT optical loop preserves the invariant. -/
theorem ztePowerLoop_recsOK (powerOut : String → Option String) (onts : Dict)
    (h : recsOK onts) : recsOK (ztePowerLoop powerOut onts) := by
  unfold ztePowerLoop
  refine foldlPreserves ?_ (dkeys onts) onts h
  intro d oid hd
  split
  · exact fourNull_recsOK d oid hd
  · split
    · exact parseZtePowerData_recsOK _ d oid _ hd (by assumption)
    · exact fourNull_recsOK d oid hd

/-- The description enrichment preserves the invariant. -/
theorem enrichDesc_recsOK (descOut : String → Option String) (onts : Dict)
    (h : recsOK onts) : recsOK (enrichDesc descOut onts) := by
  unfold enrichDesc
  refine foldlPreserves ?_ (dkeys onts) onts h
  intro d oid hd
  split
  · exact recsOK_dapply _ _ _ hd (fun r hr => hasOptKeys_rset r _ _ hr)
  · split
    · exact recsOK_dapply _ _ _ hd (fun r hr => hasOptKeys_rset r _ _ hr)
    · exact hd

/-- Decidable equality for `Except`, used to evaluate concrete runs. -/
instance exceptDecEq {ε α : Type} [DecidableEq ε] [DecidableEq α] :
    DecidableEq (Except ε α) := fun a b =>
  match a, b with
  | Except.ok x, Except.ok y =>
    if h : x = y then isTrue (by rw [h])
    else isFalse (fun e => h (Except.ok.inj e))
  | Except.error x, Except.error y =>
    if h : x = y then isTrue (by rw [h])
    else isFalse (fun e => h (Except.error.inj e))
  | Except.ok _, Except.error _ => isFalse (fun e => Except.noConfusion e)
  | Except.error _, Except.ok _ => isFalse (fun e => Except.noConfusion e)

/-! ## Claim theorems -/

/-- C1, counterexample: after three consecutive failed channel
establishments for one caller (counter at 3, `last_error` stored), the
next operation that needs the channel does NOT refuse with the stored
error and no network attempt: `_get_ssh_connection` issues a 4th
`ConnectHandler` network attempt (third conjunct), and when that 4th
attempt succeeds the call returns `ok` with a live channel instead of
raising (fourth conjunct). -/
theorem C1_counterexample :
    (sessionAfterCalls netAllFail 3).connection_attempts = 3 ∧
    (sessionAfterCalls netAllFail 3).last_error = some "boom" ∧
    (getSshConnection netAllFail (sessionAfterCalls netAllFail 3)).2.2 = 1 ∧
    getSshConnection netFailThenOk (sessionAfterCalls netFailThenOk 3) =
      ({ connected := true, connection_attempts := 4, last_error := none,
         current_context := "config" }, Except.ok (), 1) := by
  decide

/-- C1, amended: once a caller's `connect_attempts` counter is at least
2, any further channel-needing call that fails at the network level
(the oracle fails the new attempt) raises the capped-attempts
`TransportError` carrying the attempt count and the underlying error,
stores that error in `last_error` — but only after issuing exactly one
more network connection attempt (the final `1` in the conclusion). -/
theorem C1_connect_cap (net : Nat → NetOutcome) (s : SessionData) (msg : String)
    (hconn : s.connected = false) (hatt : 2 ≤ s.connection_attempts)
    (hnet : net (s.connection_attempts + 1) = NetOutcome.fail msg) :
    getSshConnection net s =
      ({ s with connection_attempts := s.connection_attempts + 1,
                last_error := some msg },
       Except.error ("No se pudo establecer conexión después de " ++
         toString (s.connection_attempts + 1) ++ " intentos: " ++ msg), 1) := by
  simp only [getSshConnection, hconn, hnet]
  simp only [Bool.false_eq_true, if_false]
  rw [if_pos (by omega)]

/-- C1, witness for the amended theorem at a concrete session state. -/
theorem C1_connect_cap_witness :
    ((sessionAfterCalls netAllFail 2).connected = false ∧
     2 ≤ (sessionAfterCalls netAllFail 2).connection_attempts) ∧
    getSshConnection netAllFail (sessionAfterCalls netAllFail 2) =
      ({ (sessionAfterCalls netAllFail 2) with
          connection_attempts := 3,
          last_error := some "boom" },
       Except.error ("No se pudo establecer conexión después de " ++
         toString 3 ++ " intentos: " ++ "boom"), 1) :=
  ⟨⟨by decide, by decide⟩,
   C1_connect_cap netAllFail (sessionAfterCalls netAllFail 2) "boom"
     (by decide) (by decide) (by decide)⟩

/-- C4, counterexample: a successful `enter_interface("2")` followed by
an `exit_interface()` whose device reply does not show a config prompt
leaves the tracked context at the interface context, not `config` —
`exit_interface` returns normally without restoring `config`. -/
theorem C4_counterexample :
    (enterInterface "global" "2" "ZXAN(config-if)#").2 = Except.ok () ∧
    exitInterface (enterInterface "global" "2" "ZXAN(config-if)#").1 "" =
      "interface-gpon-0/2" ∧
    exitInterface (enterInterface "global" "2" "ZXAN(config-if)#").1 "" ≠
      "config" := by
  decide

/-- C4, amended: for every interface name `X` and every starting
context, `enter_interface(X)` followed by `exit_interface()` leaves the
tracked context at `config` provided both calls see cooperative device
replies — the entry reply shows a prompt (`enter_interface` returns
normally) and the exit reply contains both `)` and `#`. -/
theorem C4_context_invariant (ctx x outE outQ : String)
    (hok : (enterInterface ctx x outE).2 = Except.ok ())
    (hq : pyIn ")" outQ = true) (hh : pyIn "#" outQ = true) :
    exitInterface (enterInterface ctx x outE).1 outQ = "config" := by
  by_cases hc : ctx = "interface-gpon-0/" ++ x
  · simp only [enterInterface, if_pos hc, exitInterface]
    rw [hc, startsWithInterfaceGpon x]
    simp [hq, hh]
  · by_cases he : pyIn "#" outE = true
    · simp only [enterInterface, if_neg hc, he, if_true, exitInterface]
      rw [startsWithInterfaceGpon x]
      simp [hq, hh]
    · exfalso
      simp only [enterInterface, if_neg hc] at hok
      rw [if_neg he] at hok
      cases hok

/-- C4, witness at a concrete session run. -/
theorem C4_context_invariant_witness :
    ((enterInterface "global" "5" "OLT(config-if)#").2 = Except.ok () ∧
     pyIn ")" "OLT(config)#" = true ∧ pyIn "#" "OLT(config)#" = true) ∧
    exitInterface (enterInterface "global" "5" "OLT(config-if)#").1
      "OLT(config)#" = "config" :=
  ⟨⟨by decide, by decide, by decide⟩,
   C4_context_invariant "global" "5" "OLT(config-if)#" "OLT(config)#"
     (by decide) (by decide) (by decide)⟩

/-- C5: whenever the transport call for the removal command returns
normally but the device's reply contains `error` or `invalid`
case-insensitively, `eliminar_ont` raises the device-semantic error
built from that reply instead of reporting success (and never reaches
the `write` persist step). -/
theorem C5_delete_semantic_error (reply : String → String)
    (board port ont_id : String)
    (hb : board ≠ "") (hp : port ≠ "") (hi : ont_id ≠ "")
    (hmark : pyIn "error" (pyLower (reply ("no onu " ++ ont_id))) = true ∨
             pyIn "invalid" (pyLower (reply ("no onu " ++ ont_id))) = true) :
    (eliminarOnt reply board port ont_id).1 =
      Except.error ("Error al eliminar ONT: " ++ reply ("no onu " ++ ont_id)) := by
  simp only [eliminarOnt]
  rw [if_neg (by simp [hb, hp, hi])]
  rcases hmark with hm | hm <;> simp [hm]

/-- C5, witness: the spec's Scenario B reply `"Error: invalid index"`. -/
theorem C5_delete_semantic_error_witness :
    (("1" : String) ≠ "" ∧
     pyIn "invalid" (pyLower ((fun _ : String => "Error: invalid index") "no onu 3")) = true) ∧
    (eliminarOnt (fun _ => "Error: invalid index") "1" "2" "3").1 =
      Except.error ("Error al eliminar ONT: " ++
        (fun _ : String => "Error: invalid index") ("no onu " ++ "3")) :=
  ⟨⟨by decide, by decide⟩,
   C5_delete_semantic_error (fun _ => "Error: invalid index") "1" "2" "3"
     (by decide) (by decide) (by decide) (Or.inr (by decide))⟩

/-- C9, counterexample: a records query with an out-of-range board
(`"99"`) does raise the validation error before issuing the query
commands, but when the session was left in an interface context the
error handler's `exit_interface()` writes `quit` to the channel — the
channel does see I/O for that call. -/
theorem C9_counterexample :
    (obtenerOnts "interface-gpon-0/1" "99" "0" none
        (fun _ => none) (fun _ => none)).1 =
      Except.error "Parámetros inválidos: tarjeta=99, puerto=0" ∧
    (obtenerOnts "interface-gpon-0/1" "99" "0" none
        (fun _ => none) (fun _ => none)).2 = ["quit"] := by
  decide

/-- C9, amended: whenever board/port fail the validation patterns
(board 1-17, port 0-16, each also accepted with one trailing newline by
Python's `$`), the records query raises the validation error, and —
provided the session's tracked context is not an interface context —
the channel sees no I/O at all for that call (empty trace). -/
theorem C9_validation_no_io (ctx tarjeta puerto : String)
    (stateOut : Option String) (powerOut descOut : String → Option String)
    (hv : validateParameters tarjeta puerto = false)
    (hctx : pyStartsWith ctx "interface" = false) :
    obtenerOnts ctx tarjeta puerto stateOut powerOut descOut =
      (Except.error ("Parámetros inválidos: tarjeta=" ++ tarjeta ++
        ", puerto=" ++ puerto), []) := by
  simp [obtenerOnts, hv, hctx]

/-- C9, witness for the amended theorem. -/
theorem C9_validation_no_io_witness :
    (validateParameters "99" "0" = false ∧
     pyStartsWith "global" "interface" = false) ∧
    obtenerOnts "global" "99" "0" none (fun _ => none) (fun _ => none) =
      (Except.error ("Parámetros inválidos: tarjeta=" ++ "99" ++
        ", puerto=" ++ "0"), []) :=
  ⟨⟨by decide, by decide⟩,
   C9_validation_no_io "global" "99" "0" none (fun _ => none) (fun _ => none)
     (by decide) (by decide)⟩

/-- C2: the autofind parser is a total function of the payload (it is
defined by structural recursion, so it terminates and never raises for
any payload), and any payload carrying neither the table markers
(`OnuIndex` + `gpon-onu_`) nor the block markers (`Number:` + `F/S/P:`)
yields the empty record list with exactly one diagnostic. -/
theorem C2_autofind_unrecognized (output : String)
    (h1 : (pyIn "OnuIndex" output && pyIn "gpon-onu_" output) = false)
    (h2 : (pyIn "Number:" output && pyIn "F/S/P:" output) = false) :
    (parseAutofindData output).1 = [] ∧ (parseAutofindData output).2.length = 1 := by
  unfold parseAutofindData
  split
  · exact ⟨rfl, rfl⟩
  · have hdet : detectAutofindFormat output = "unknown" := by
      unfold detectAutofindFormat
      rw [if_neg, if_neg]
      · simp [h2]
      · simp [h1]
    rw [hdet]
    exact ⟨rfl, rfl⟩

/-- C2, witness on a concrete unrecognized payload. -/
theorem C2_autofind_unrecognized_witness :
    ((pyIn "OnuIndex" "ZXAN# unrecognized device chatter" &&
      pyIn "gpon-onu_" "ZXAN# unrecognized device chatter") = false ∧
     (pyIn "Number:" "ZXAN# unrecognized device chatter" &&
      pyIn "F/S/P:" "ZXAN# unrecognized device chatter") = false) ∧
    (parseAutofindData "ZXAN# unrecognized device chatter").1 = [] ∧
    (parseAutofindData "ZXAN# unrecognized device chatter").2.length = 1 :=
  ⟨⟨by decide, by decide⟩,
   C2_autofind_unrecognized "ZXAN# unrecognized device chatter"
     (by decide) (by decide)⟩

/-- Concrete ZTE state-table payload of the spec's Scenario A: header,
dashed separator, then the raw row. -/
def zteScenarioPayload : String :=
  "OnuIndex                 Admin State  OMCC State  O7 State  Phase State\n" ++
  "---------------------------------------------------------------------\n" ++
  "gpon-onu_1/2/3:1  enable  enable  operation  working"

/-- C6, counterexample: a payload consisting of the raw row alone (no
dashed separator line before it) parses to NO records at all — the row
parser only starts consuming rows after a `---` separator line, so a
payload merely containing the raw line need not produce the record. -/
theorem C6_counterexample :
    parseZteStateData "gpon-onu_1/2/3:1  enable  enable  operation  working"
      "2" "3" = [] ∧
    dget (parseZteStateData
      "gpon-onu_1/2/3:1  enable  enable  operation  working" "2" "3") "1" =
      none := by
  decide

/-- C6, amended (Scenario A with the separator the device always
prints): parsing the payload header + `---` separator + raw row
`gpon-onu_1/2/3:1  enable  enable  operation  working` for board `2`,
port `3` stores under id `1` exactly the record with board `"2"`,
port `"3"`, id `"1"` and state `online`. -/
theorem C6_scenario_a :
    dget (parseZteStateData zteScenarioPayload "2" "3") "1" =
      some (zteRec "1" "2" "3" "online" "gpon-onu_1/2/3:1") ∧
    rget (zteRec "1" "2" "3" "online" "gpon-onu_1/2/3:1") "estado" =
      some (PyVal.str "online") ∧
    rget (zteRec "1" "2" "3" "online" "gpon-onu_1/2/3:1") "tarjeta" =
      some (PyVal.str "2") ∧
    rget (zteRec "1" "2" "3" "online" "gpon-onu_1/2/3:1") "puerto" =
      some (PyVal.str "3") := by
  decide

/-- C7: the spec's Scenario C line parses to the full autofind record
with `sn = "HWTC00FFF039"`, board `"1"`, port `"5"` and
`pon_type = "GPON"` (via the vendor prefix `HWTC`), and every serial
number whose 4-character uppercased prefix is in neither vendor table
is classified with the default `GPON`. -/
theorem C7_autofind_line :
    parseTableLine "gpon-onu_1/1/5:2   HWTC00FFF039   unknown" =
      some { number := "2", fsp := "1/1/5", board := "1", port := "5",
             sn := "HWTC00FFF039", sn_hex := "HWTC00FFF039", state := "unknown",
             pon_type := "GPON", vendor_id := "HWTC", type := "Unknown",
             ont_version := "", software_version := "", equipment_id := "",
             autofind_time := "", password := "", loid := "" } ∧
    ∀ sn : String, snVendor sn ∉ (["HWTX", "ZTEX"] : List String) →
      snVendor sn ∉ (["HWTC", "GPTF", "MONU", "VSOL", "ZTEG", "ALCL"] : List String) →
      detectPonTypeFromSn sn = "GPON" := by
  constructor
  · decide
  · intro sn h1 h2
    simp only [detectPonTypeFromSn]
    split
    · rfl
    · split
      · rfl
      · rfl

/-- C7, witness: an unknown vendor prefix falls back to `GPON`. -/
theorem C7_autofind_line_witness :
    (snVendor "QQQQ1234" ∉ (["HWTX", "ZTEX"] : List String)) ∧
    detectPonTypeFromSn "QQQQ1234" = "GPON" :=
  ⟨by decide, C7_autofind_line.2 "QQQQ1234" (by decide) (by decide)⟩

/-- Lookup in a dict whose records were all mapped in place. -/
theorem dget_mapSnd (f : Rec → Rec) (d : Dict) (k : String) :
    dget (d.map (fun e => (e.1, f e.2))) k = (dget d k).map f := by
  induction d with
  | nil => rfl
  | cons e t ih =>
    obtain ⟨k0, r0⟩ := e
    by_cases h : k0 = k <;> simp [dget, h, ih]

/-- C3: every record returned by a records query — a ZTE state parse
enriched by the optical-power loop and the description pass, or a
Huawei summary/optical parse — carries all six declared optional fields
`ont_rx`, `olt_rx`, `temperature`, `distance`, `last_down_time`,
`last_down_cause` as present keys (value `null` when unavailable);
no returned record omits one of these keys. -/
theorem C3_records_complete :
    (∀ (tarjeta puerto : String) (stateOut : Option String)
       (powerOut descOut : String → Option String) (oid : String) (r : Rec),
       dget (obtenerOntsZte tarjeta puerto stateOut powerOut descOut).1 oid =
         some r → hasOptKeys r = true) ∧
    (∀ (output_summary output_optical tarjeta puerto oid : String) (r : Rec),
       dget (parseOntData output_summary output_optical tarjeta puerto) oid =
         some r → hasOptKeys r = true) := by
  constructor
  · intro tarjeta puerto stateOut powerOut descOut oid r h
    match stateOut with
    | none => simp [obtenerOntsZte, dget] at h
    | some out =>
      have h0 := parseZteStateData_recsOK out tarjeta puerto
      have h1 := ztePowerLoop_recsOK powerOut _ h0
      have h2 := enrichDesc_recsOK descOut _ h1
      exact h2 oid r (by simpa [obtenerOntsZte] using h)
  · intro output_summary output_optical tarjeta puerto oid r h
    unfold parseOntData at h
    split at h
    · simp [dget] at h
    · rw [dget_mapSnd] at h
      match h0 : dget (if output_optical ≠ "" ∧ (pyStrip output_optical).length ≥ 10
          then parseOpticalData output_optical
            (parseSummaryData output_summary [] tarjeta puerto)
          else parseSummaryData output_summary [] tarjeta puerto) oid with
      | none => rw [h0] at h; cases h
      | some r0 =>
        rw [h0] at h
        cases h
        exact hasOptKeys_setdefSix r0

/-- Concrete Huawei summary payload used to witness the Huawei branch. -/
def huaweiSummarySample : String := "ONT-ID  Run-state\n1  online"

/-- C3, witness: both query flavours evaluated on concrete payloads. -/
theorem C3_records_complete_witness :
    hasOptKeys ((dget (obtenerOntsZte "2" "3" (some zteScenarioPayload)
      (fun _ => none) (fun _ => none)).1 "1").getD []) = true ∧
    hasOptKeys ((dget (parseOntData huaweiSummarySample "" "1" "0") "1").getD [])
      = true :=
  ⟨C3_records_complete.1 "2" "3" (some zteScenarioPayload)
     (fun _ => none) (fun _ => none) "1" _ rfl,
   C3_records_complete.2 huaweiSummarySample "" "1" "0" "1" _ rfl⟩

/-- Two strings whose first characters evaluate differently are not
equal (the heads evaluate even when the string tails are symbolic). -/
theorem neOfHeads (s t : String) (e : s = t)
    (hne : (s.data.head? == t.data.head?) = false) : False := by
  subst e
  simp at hne

/-- The uplink VLAN-tagging command never appears in the command list
of a `routing`-mode authorization. -/
theorem uplinkNotInRouting (board port onu_id sn onu_type vlan name : String) :
    ("vlan port eth_0/1 mode tag vlan " ++ vlan) ∉
      autorizarCmds board port onu_id sn onu_type vlan name "routing" := by
  intro hmem
  have hpl : pyLower "routing" = "routing" := rfl
  simp only [autorizarCmds, hpl] at hmem
  simp at hmem
  rcases hmem with h|h|h|⟨_, h⟩|h|h|h|h|h|h|h|h|h <;>
    exact neOfHeads _ _ h rfl

/-- C8: for every successful authorize run with the declared mode
domain (`routing` or `bridging`), the uplink VLAN-tagging command
`vlan port eth_0/1 mode tag vlan <vlan>` appears in the returned
`commands_executed` list iff the requested mode is `bridging`; with
`routing` it is never issued. -/
theorem C8_uplink_vlan_iff_bridging
    (board port onu_id sn onu_type vlan zone name mode : String)
    (hmode : mode = "routing" ∨ mode = "bridging") (r : CmdResult)
    (hok : autorizarOnt board port onu_id sn onu_type vlan zone name mode =
      Except.ok r) :
    (("vlan port eth_0/1 mode tag vlan " ++ vlan) ∈ r.commands_executed ↔
      mode = "bridging") := by
  unfold autorizarOnt at hok
  split at hok
  · cases hok
  · have hr := Except.ok.inj hok
    subst hr
    rcases hmode with hm | hm <;> subst hm
    · constructor
      · intro hmem
        exact absurd hmem (uplinkNotInRouting board port onu_id sn onu_type vlan name)
      · intro h; exact absurd h (by decide)
    · constructor
      · intro _; rfl
      · intro _
        have hpl : pyLower "bridging" = "bridging" := rfl
        simp [autorizarCmds, hpl]

/-- C8, witness at a concrete bridging authorization. -/
theorem C8_uplink_vlan_iff_bridging_witness :
    (("bridging" : String) = "routing" ∨ ("bridging" : String) = "bridging") ∧
    (("vlan port eth_0/1 mode tag vlan " ++ "100") ∈
      (CmdResult.mk "success" ("ONT autorizada exitosamente en posición " ++ "7")
        "7" (autorizarCmds "1" "2" "7" "AB12CD34" "ZTE-F601" "100" "" "bridging")).commands_executed ↔
      ("bridging" : String) = "bridging") :=
  ⟨Or.inr rfl,
   C8_uplink_vlan_iff_bridging "1" "2" "7" "AB12CD34" "ZTE-F601" "100" "z" ""
     "bridging" (Or.inr rfl) _ rfl⟩

/-- `find?` over `range'` returns the first in-range element satisfying
the predicate: it satisfies it, lies in range, and everything below it
in range fails it. -/
theorem find?_range'_spec (p : Nat → Bool) :
    ∀ (n s i : Nat), (List.range' s n).find? p = some i →
      p i = true ∧ s ≤ i ∧ i < s + n ∧ ∀ j, s ≤ j → j < i → p j = false := by
  intro n
  induction n with
  | zero => intro s i h; simp [List.range'] at h
  | succ n ih =>
    intro s i h
    rw [List.range'_succ] at h
    by_cases hp : p s = true
    · rw [List.find?_cons_of_pos _ hp] at h
      cases h
      exact ⟨hp, Nat.le_refl _, by omega, fun j h1 h2 => absurd h2 (by omega)⟩
    · have hp' : p s = false := by revert hp; cases p s <;> simp
      rw [List.find?_cons_of_neg _ (by simp [hp'])] at h
      obtain ⟨hpi, hsi, hin, hall⟩ := ih (s + 1) i h
      refine ⟨hpi, by omega, by omega, fun j h1 h2 => ?_⟩
      rcases Nat.eq_or_lt_of_le h1 with he | hl
      · rw [← he]; exact hp'
      · exact hall j (by omega) h2

/-- C10: a returned next-available-ONU id is always in 1..128, unused,
and minimal (every smaller id in range is used); when every id in
1..128 is used, the computation raises the port-full error instead of
returning a value. -/
theorem C10_next_onu_id (output : String) :
    (∀ i, obtenerSiguienteOnuId output = Except.ok i →
       1 ≤ i ∧ i ≤ 128 ∧ Int.ofNat i ∉ usedOnuIds output ∧
       ∀ j, 1 ≤ j → j < i → Int.ofNat j ∈ usedOnuIds output) ∧
    ((∀ j, 1 ≤ j → j ≤ 128 → Int.ofNat j ∈ usedOnuIds output) →
       obtenerSiguienteOnuId output =
         Except.error "Puerto lleno: no hay IDs disponibles") := by
  constructor
  · intro i h
    unfold obtenerSiguienteOnuId at h
    cases hf : (List.range' 1 128).find?
        (fun n => decide (Int.ofNat n ∉ usedOnuIds output)) with
    | none =>
      rw [hf] at h
      exact absurd h (by simp)
    | some i0 =>
      rw [hf] at h
      have hi : i0 = i := Except.ok.inj h
      subst hi
      obtain ⟨hpi, h1, h2, hall⟩ := find?_range'_spec _ 128 1 i0 hf
      refine ⟨h1, by omega, of_decide_eq_true hpi, fun j hj1 hj2 => ?_⟩
      have hj := of_decide_eq_false (hall j hj1 hj2)
      exact not_not.mp hj
  · intro hfull
    unfold obtenerSiguienteOnuId
    cases hf : (List.range' 1 128).find?
        (fun n => decide (Int.ofNat n ∉ usedOnuIds output)) with
    | none => rfl
    | some i0 =>
      exfalso
      obtain ⟨hpi, h1, h2, _⟩ := find?_range'_spec _ 128 1 i0 hf
      exact of_decide_eq_true hpi (hfull i0 h1 (by omega))

/-- C10, witness: with ids 1 and 2 configured, the returned id is 3,
which is unused while 2 is used. -/
theorem C10_next_onu_id_witness :
    obtenerSiguienteOnuId "onu 1 type V-SOL sn X\nonu 2 type F601 sn Y" =
      Except.ok 3 ∧
    Int.ofNat 3 ∉ usedOnuIds "onu 1 type V-SOL sn X\nonu 2 type F601 sn Y" ∧
    Int.ofNat 2 ∈ usedOnuIds "onu 1 type V-SOL sn X\nonu 2 type F601 sn Y" :=
  ⟨by decide,
   ((C10_next_onu_id "onu 1 type V-SOL sn X\nonu 2 type F601 sn Y").1 3
     (by decide)).2.2.1,
   ((C10_next_onu_id "onu 1 type V-SOL sn X\nonu 2 type F601 sn Y").1 3
     (by decide)).2.2.2 2 (by decide) (by decide)⟩

end OltZte
